import Mathlib

/-!
Verification of the todoist CLI (src/todoist_cli.py).

The program is a command-line front end over a remote task API.  We embed
its pure parts (priority formatting, table-row rendering, project-name
lookup) directly, and its handlers as functions from an explicit model of
the remote client (each remote operation is a value or function producing
`Except String _`, where `Except.error e` models a raised exception with
message `e`).  A handler run is summarised by a `CmdResult`: the lines it
printed, the exit code (`0` means the handler returned normally, anything
else models `sys.exit`), and the list of remote calls it performed, in
order.  Python truthiness of optional arguments is modelled explicitly.
-/

namespace TodoistCli

/-- Result of running one command handler: printed lines, exit code
(`0` = normal return, nonzero = `sys.exit(code)`), and the remote calls
performed, in order. -/
structure CmdResult (α : Type) where
  output : List String
  exitCode : Nat
  calls : List α
deriving Repr

/-- Python truthiness of an `Optional[str]`: `None` and `""` are falsy. -/
def pyTruthyStr : Option String → Bool
  | none => false
  | some s => !s.isEmpty

/-- Python truthiness of an `Optional[int]`: `None` and `0` are falsy. -/
def pyTruthyInt : Option Int → Bool
  | none => false
  | some p => p != 0

/-- A due-date descriptor as returned by the remote service
(`task.due.string`). -/
structure Due where
  string : String
deriving Repr, DecidableEq

/-- A task as held transiently in memory (source: data model in the
script, fields read by the handlers). -/
structure Task where
  id : String
  content : String
  priority : Int
  due : Option Due
deriving Repr, DecidableEq

/-- A project: identifier, name, optional parent identifier. -/
structure Project where
  id : String
  name : String
  parent_id : Option String
deriving Repr, DecidableEq

/-- `format_priority` (todoist_cli.py lines 58-66): dictionary lookup
`{4: "P1 (High)", 3: "P2", 2: "P3", 1: "P4 (Normal)"}.get(priority, "P4")`. -/
def format_priority (priority : Int) : String :=
  if priority = 4 then "P1 (High)"
  else if priority = 3 then "P2"
  else if priority = 2 then "P3"
  else if priority = 1 then "P4 (Normal)"
  else "P4"

/-- A run of `n` spaces, the padding added by a Python `f"{s:<w}"` field. -/
def spaces (n : Nat) : String :=
  String.mk (List.replicate n ' ')

/-- Python left-justification `f"{s:<w}"`: pad with spaces on the right to
minimum width `w`; a string already at least `w` long is left unchanged
(never truncated). -/
def ljust (s : String) (w : Nat) : String :=
  s ++ spaces (w - s.length)

/-- `format_task_row` (todoist_cli.py lines 69-71):
`f"{task_id:<20} | {priority:<12} | {due:<15} | {content}"`. -/
def format_task_row (task_id priority due content : String) : String :=
  ljust task_id 20 ++ " | " ++ ljust priority 12 ++ " | " ++ ljust due 15 ++ " | " ++ content

/-- One row of the projects table (todoist_cli.py lines 197-200):
`f"{proj.id:<20} | {indent}{proj.name}"` where `indent` is two spaces when
the project has a parent. -/
def format_project_row (proj : Project) : String :=
  let indent := if proj.parent_id.isSome then "  " else ""
  ljust proj.id 20 ++ " | " ++ indent ++ proj.name

/-- Python `str.lower()`, modelled characterwise. -/
def strLower (s : String) : String :=
  String.mk (s.data.map Char.toLower)

/-- Inner loop of `get_project_id_by_name`: first project in the page
whose lowercased name equals the lowercased query. -/
def find_project_in_page (page : List Project) (project_name : String) : Option String :=
  match page with
  | [] => none
  | proj :: rest =>
      if strLower proj.name == strLower project_name then some proj.id
      else find_project_in_page rest project_name

/-- `get_project_id_by_name` (todoist_cli.py lines 74-80): iterate the
paginated project listing and return the id of the first project whose
name matches case-insensitively, else `None`. -/
def get_project_id_by_name (pages : List (List Project)) (project_name : String) : Option String :=
  match pages with
  | [] => none
  | page :: rest =>
      match find_project_in_page page project_name with
      | some i => some i
      | none => get_project_id_by_name rest project_name

/-- `get_api_key` (todoist_cli.py lines 32-50): read the environment
variable; if it is unset or empty (`if not api_key:`), print the
remediation message and `sys.exit(1)` (modelled as `Except.error` carrying
the printed lines and the exit code). -/
def get_api_key (env : Option String) : Except (List String × Nat) String :=
  if !pyTruthyStr env then
    Except.error (["Error: TODOIST_API_KEY environment variable not set.",
      "Set it with: export TODOIST_API_KEY=\x27your-api-key\x27",
      "Or add to ~/.bashrc for persistence."], 1)
  else
    Except.ok (env.getD "")

/-- Every handler begins with `api = get_api()`, which resolves the
credential before any remote call: if resolution fails the process exits
there, and the handler body (`handler`) is never reached. -/
def with_api {α : Type} (env : Option String) (handler : CmdResult α) : CmdResult α :=
  match get_api_key env with
  | Except.error (msgs, code) => ⟨msgs, code, []⟩
  | Except.ok _ => handler

/-- The remote operations used by the task-listing handler:
`api.get_projects()` and `api.get_tasks(**task_params)` (the optional
`project_id` filter).  `Except.error e` models a raised exception. -/
structure TasksApi where
  get_projects : Except String (List (List Project))
  get_tasks : Option String → Except String (List (List Task))

/-- Remote calls the task-listing handler can make, with the filter
argument it passed. -/
inductive TCall
  | projects
  | tasks (project_id : Option String)
deriving Repr, DecidableEq

/-- The warning printed when the project-name filter matches nothing:
`f"Warning: Project '{args.project}' not found. Showing all tasks."`. -/
def project_warning (name : String) : String :=
  "Warning: Project \x27" ++ name ++ "\x27 not found. Showing all tasks."

/-- `task.due.string if task.due else "No Date"` (todoist_cli.py line 112). -/
def dueDisplay (t : Task) : String :=
  match t.due with
  | some d => d.string
  | none => "No Date"

/-- Lines printed for a drained task list (todoist_cli.py lines 103-114):
either the empty notice, or header, 80-dash separator, one row per task. -/
def task_output (tasks : List Task) : List String :=
  if tasks.isEmpty then ["No active tasks found."]
  else
    format_task_row "ID" "Priority" "Due" "Content"
      :: String.mk (List.replicate 80 '-')
      :: tasks.map (fun t => format_task_row t.id (format_priority t.priority) (dueDisplay t) t.content)

/-- Second half of `list_tasks`: drain `api.get_tasks(**task_params)` and
print, still inside the `try` (so a raise becomes the generic error and
`sys.exit(1)`).  `printed` are lines already printed before this point and
`prior` the remote calls already made. -/
def finish_tasks (api : TasksApi) (project_id : Option String)
    (printed : List String) (prior : List TCall) : CmdResult TCall :=
  match api.get_tasks project_id with
  | Except.error e =>
      ⟨printed ++ ["Error fetching tasks: " ++ e], 1, prior ++ [TCall.tasks project_id]⟩
  | Except.ok pages =>
      let all_tasks := pages.flatten
      ⟨printed ++ task_output all_tasks, 0, prior ++ [TCall.tasks project_id]⟩

/-- `list_tasks` (todoist_cli.py lines 83-118).  When the filter argument
is truthy, the project lookup runs first (inside the `try`: a raise there
reaches the same `except` clause); a truthy looked-up id becomes the
`project_id` parameter, otherwise the warning is printed and no filter is
set. -/
def list_tasks (api : TasksApi) (project : Option String) : CmdResult TCall :=
  if pyTruthyStr project then
    match api.get_projects with
    | Except.error e => ⟨["Error fetching tasks: " ++ e], 1, [TCall.projects]⟩
    | Except.ok pages =>
        let project_id := get_project_id_by_name pages (project.getD "")
        if pyTruthyStr project_id then
          finish_tasks api project_id [] [TCall.projects]
        else
          finish_tasks api none [project_warning (project.getD "")] [TCall.projects]
  else
    finish_tasks api none [] []

/-- `list_projects` (todoist_cli.py lines 181-203): drain the paginated
project listing and print the table, or the generic error plus
`sys.exit(1)` on a raise. -/
def list_projects (get_projects : Except String (List (List Project))) : CmdResult String :=
  match get_projects with
  | Except.error e => ⟨["Error fetching projects: " ++ e], 1, ["get_projects"]⟩
  | Except.ok pages =>
      let all_projects := pages.flatten
      if all_projects.isEmpty then ⟨["No projects found."], 0, ["get_projects"]⟩
      else
        ⟨(ljust "ID" 20 ++ " | " ++ "Name")
            :: String.mk (List.replicate 45 '-')
            :: all_projects.map format_project_row, 0, ["get_projects"]⟩

/-- Arguments of the `add` subcommand with the defaults declared by the
argument schema (todoist_cli.py lines 305-329): `--due` and `--project-id`
default to `None`, `--priority` defaults to `1`. -/
structure AddArgs where
  content : String
  due : Option String := none
  priority : Int := 1
  project_id : Option String := none
deriving Repr, DecidableEq

/-- The keyword arguments `add_task` passes to `api.add_task`
(todoist_cli.py lines 126-137): `content` and `priority` always;
`due_string` and `project_id` only when the flag value is truthy. -/
structure AddParams where
  content : String
  priority : Int
  due_string : Option String := none
  project_id : Option String := none
deriving Repr, DecidableEq

/-- Build the `task_params` dictionary of `add_task`. -/
def build_add_params (args : AddArgs) : AddParams :=
  let base : AddParams := { content := args.content, priority := args.priority }
  let withDue := if pyTruthyStr args.due then { base with due_string := args.due } else base
  if pyTruthyStr args.project_id then { withDue with project_id := args.project_id } else withDue

/-- `add_task` (todoist_cli.py lines 121-148): build the parameters, call
the remote creation once, echo the created task or report the error and
`sys.exit(1)`. -/
def add_task (remote : AddParams → Except String Task) (args : AddArgs) : CmdResult AddParams :=
  let task_params := build_add_params args
  match remote task_params with
  | Except.ok task =>
      ⟨["Task created successfully!",
        "  ID: " ++ task.id,
        "  Content: " ++ task.content]
        ++ (match task.due with
            | some d => ["  Due: " ++ d.string]
            | none => [])
        ++ ["  Priority: " ++ format_priority task.priority],
        0, [task_params]⟩
  | Except.error e => ⟨["Error creating task: " ++ e], 1, [task_params]⟩

/-- `complete_task` (todoist_cli.py lines 151-163): one remote call; a
`False` return or a raise prints an error and exits 1, a `True` return
prints the confirmation. -/
def complete_task (remote : Except String Bool) (task_id : String) : CmdResult String :=
  match remote with
  | Except.ok is_success =>
      if is_success then
        ⟨["Task " ++ task_id ++ " marked as completed."], 0, ["complete_task"]⟩
      else
        ⟨["Error: Could not complete task " ++ task_id ++ "."], 1, ["complete_task"]⟩
  | Except.error e => ⟨["Error completing task: " ++ e], 1, ["complete_task"]⟩

/-- `delete_task` (todoist_cli.py lines 166-178): same pattern as
`complete_task`. -/
def delete_task (remote : Except String Bool) (task_id : String) : CmdResult String :=
  match remote with
  | Except.ok is_success =>
      if is_success then
        ⟨["Task " ++ task_id ++ " deleted."], 0, ["delete_task"]⟩
      else
        ⟨["Error: Could not delete task " ++ task_id ++ "."], 1, ["delete_task"]⟩
  | Except.error e => ⟨["Error deleting task: " ++ e], 1, ["delete_task"]⟩

/-- The `update_params` dictionary of `update_task` (todoist_cli.py lines
233-240): a key is present exactly when the corresponding flag value is
truthy. -/
structure UpdateParams where
  content : Option String := none
  due_string : Option String := none
  priority : Option Int := none
deriving Repr, DecidableEq

/-- `if not update_params:` — the dictionary is falsy iff no key was set. -/
def UpdateParams.isEmptyDict (p : UpdateParams) : Bool :=
  p.content.isNone && p.due_string.isNone && p.priority.isNone

/-- Build `update_params` from the three optional flags, mirroring the
three `if` statements of `update_task`. -/
def build_update_params (content due : Option String) (priority : Option Int) : UpdateParams :=
  let p : UpdateParams := {}
  let p := if pyTruthyStr content then { p with content := content } else p
  let p := if pyTruthyStr due then { p with due_string := due } else p
  if pyTruthyInt priority then { p with priority := priority } else p

/-- `update_task` (todoist_cli.py lines 229-256): with an empty parameter
dictionary, print the validation error and `sys.exit(1)` before any remote
call; otherwise call the remote update once and report its outcome. -/
def update_task (remote : UpdateParams → Except String Bool) (task_id : String)
    (content due : Option String) (priority : Option Int) : CmdResult UpdateParams :=
  let update_params := build_update_params content due priority
  if update_params.isEmptyDict then
    ⟨["Error: No updates specified. Use --content, --due, or --priority."], 1, []⟩
  else
    match remote update_params with
    | Except.ok is_success =>
        if is_success then
          ⟨["Task " ++ task_id ++ " updated successfully."], 0, [update_params]⟩
        else
          ⟨["Error: Could not update task " ++ task_id ++ "."], 1, [update_params]⟩
    | Except.error e => ⟨["Error updating task: " ++ e], 1, [update_params]⟩

/-- The seven command handlers the dispatcher can route to. -/
inductive Handler
  | tasks
  | projects
  | add
  | complete
  | delete
  | get
  | update
deriving Repr, DecidableEq

/-- The subparser registrations of `main` (todoist_cli.py lines 282-391):
each entry lists the canonical name followed by its aliases, and the
handler installed by `set_defaults(func=...)`. -/
def command_table : List (List String × Handler) :=
  [(["tasks", "ls", "list"], Handler.tasks),
   (["projects", "proj"], Handler.projects),
   (["add", "new", "create"], Handler.add),
   (["complete", "done", "close", "finish"], Handler.complete),
   (["delete", "rm", "remove"], Handler.delete),
   (["get", "show", "view"], Handler.get),
   (["update", "edit", "modify"], Handler.update)]

/-- Route a subcommand word to its handler: argparse accepts the canonical
name or any alias of a subparser and runs that subparser's `func`. -/
def dispatch (cmd : String) : Option Handler :=
  (command_table.find? (fun entry => entry.1.contains cmd)).map (fun entry => entry.2)

/-- A concrete project used to exercise the handlers. -/
def demoProject : Project :=
  { id := "p1", name := "Home", parent_id := none }

/-- A concrete task used to exercise the handlers. -/
def demoTask : Task :=
  { id := "t1", content := "Buy milk", priority := 1, due := none }

/-- A remote model whose project listing succeeds but contains no project
named "Work", and whose task listing succeeds. -/
def demoApiMiss : TasksApi :=
  { get_projects := Except.ok [[demoProject]],
    get_tasks := fun _ => Except.ok [[demoTask]] }

/-- A remote model whose project listing raises. -/
def demoApiRaise : TasksApi :=
  { get_projects := Except.error "boom",
    get_tasks := fun _ => Except.ok [] }

/-- The padding run of a left-justified field has exactly the requested
length. -/
theorem spaces_length (n : Nat) : (spaces n).length = n := by
  simp [spaces, String.length]

/-- The page scan returns the id of the first project in the page whose
lowercased name equals the lowercased query. -/
theorem find_project_in_page_eq (page : List Project) (n : String) :
    find_project_in_page page n =
      (page.find? (fun proj => strLower proj.name == strLower n)).map Project.id := by
  induction page with
  | nil => rfl
  | cons proj rest ih =>
      cases h : strLower proj.name == strLower n <;>
        simp [find_project_in_page, List.find?_cons, h, ih]

/-- C1: the priority formatting function returns exactly "P1 (High)" for
code 4, "P2" for 3, "P3" for 2, "P4 (Normal)" for 1, and the default
label "P4" for every integer outside {1,2,3,4}. -/
theorem format_priority_mapping :
    format_priority 4 = "P1 (High)" ∧ format_priority 3 = "P2" ∧
    format_priority 2 = "P3" ∧ format_priority 1 = "P4 (Normal)" ∧
    ∀ p : Int, p ≠ 1 → p ≠ 2 → p ≠ 3 → p ≠ 4 → format_priority p = "P4" := by
  refine ⟨rfl, rfl, rfl, rfl, ?_⟩
  intro p h1 h2 h3 h4
  simp [format_priority, h1, h2, h3, h4]

/-- Witness for C1 at the concrete out-of-range code 7. -/
theorem format_priority_mapping_witness :
    (7 : Int) ≠ 1 ∧ (7 : Int) ≠ 2 ∧ (7 : Int) ≠ 3 ∧ (7 : Int) ≠ 4 ∧
    format_priority 7 = "P4" :=
  ⟨by decide, by decide, by decide, by decide,
   format_priority_mapping.2.2.2.2 7 (by decide) (by decide) (by decide) (by decide)⟩

/-- C2: an update invocation supplying none of content, due and priority
prints the "no updates specified" error and exits with status 1, with no
remote call performed. -/
theorem update_no_fields_exits :
    ∀ (remote : UpdateParams → Except String Bool) (task_id : String),
      update_task remote task_id none none none =
        ⟨["Error: No updates specified. Use --content, --due, or --priority."], 1, []⟩ :=
  fun _ _ => rfl

/-- C10: an update invocation whose content and due flags are empty or
absent strings and whose priority is falsy is treated as supplying no
field: the validation error is printed and the process exits 1 with no
remote call. -/
theorem update_empty_strings_not_supplied :
    ∀ (remote : UpdateParams → Except String Bool) (task_id : String)
      (content due : Option String) (priority : Option Int),
      pyTruthyStr content = false → pyTruthyStr due = false →
      pyTruthyInt priority = false →
      update_task remote task_id content due priority =
        ⟨["Error: No updates specified. Use --content, --due, or --priority."], 1, []⟩ := by
  intro remote task_id c d p hc hd hp
  simp [update_task, build_update_params, hc, hd, hp, UpdateParams.isEmptyDict]

/-- Witness for C10: both string flags supplied as the empty string and
no priority. -/
theorem update_empty_strings_witness :
    pyTruthyStr (some "") = false ∧ pyTruthyInt none = false ∧
    update_task (fun _ => Except.ok true) "42" (some "") (some "") none =
      ⟨["Error: No updates specified. Use --content, --due, or --priority."], 1, []⟩ :=
  ⟨rfl, rfl,
   update_empty_strings_not_supplied (fun _ => Except.ok true) "42"
     (some "") (some "") none rfl rfl rfl⟩

/-- C4: with the credential environment variable unset or empty, any
handler run prints the three-line remediation message and exits with
status 1, performing no remote call. -/
theorem missing_api_key_exits :
    ∀ (α : Type) (env : Option String) (handler : CmdResult α),
      pyTruthyStr env = false →
      with_api env handler =
        ⟨["Error: TODOIST_API_KEY environment variable not set.",
          "Set it with: export TODOIST_API_KEY=\x27your-api-key\x27",
          "Or add to ~/.bashrc for persistence."], 1, []⟩ := by
  intro α env handler h
  simp [with_api, get_api_key, h]

/-- Witness for C4 with the variable unset. -/
theorem missing_api_key_witness :
    pyTruthyStr none = false ∧
    with_api none (⟨["x"], 0, ["call"]⟩ : CmdResult String) =
      ⟨["Error: TODOIST_API_KEY environment variable not set.",
        "Set it with: export TODOIST_API_KEY=\x27your-api-key\x27",
        "Or add to ~/.bashrc for persistence."], 1, []⟩ :=
  ⟨rfl, missing_api_key_exits String none ⟨["x"], 0, ["call"]⟩ rfl⟩

/-- C7: complete and delete print a confirmation and return normally
exactly when the remote call returns `True`; a `False` return or a raise
prints an error and exits with status 1. -/
theorem complete_delete_status :
    ∀ (remote : Except String Bool) (task_id : String),
      (complete_task (Except.ok true) task_id =
        ⟨["Task " ++ task_id ++ " marked as completed."], 0, ["complete_task"]⟩) ∧
      (complete_task (Except.ok false) task_id =
        ⟨["Error: Could not complete task " ++ task_id ++ "."], 1, ["complete_task"]⟩) ∧
      (∀ e, complete_task (Except.error e) task_id =
        ⟨["Error completing task: " ++ e], 1, ["complete_task"]⟩) ∧
      (delete_task (Except.ok true) task_id =
        ⟨["Task " ++ task_id ++ " deleted."], 0, ["delete_task"]⟩) ∧
      (delete_task (Except.ok false) task_id =
        ⟨["Error: Could not delete task " ++ task_id ++ "."], 1, ["delete_task"]⟩) ∧
      (∀ e, delete_task (Except.error e) task_id =
        ⟨["Error deleting task: " ++ e], 1, ["delete_task"]⟩) ∧
      ((complete_task remote task_id).exitCode ≠ 0 ↔ remote ≠ Except.ok true) ∧
      ((delete_task remote task_id).exitCode ≠ 0 ↔ remote ≠ Except.ok true) := by
  intro remote task_id
  refine ⟨rfl, rfl, fun e => rfl, rfl, rfl, fun e => rfl, ?_, ?_⟩
  · rcases remote with e | b
    · simp [complete_task]
    · cases b <;> simp [complete_task]
  · rcases remote with e | b
    · simp [delete_task]
    · cases b <;> simp [delete_task]

/-- Witness for C7 at a concrete failing remote result. -/
theorem complete_delete_status_witness :
    (Except.ok false : Except String Bool) ≠ Except.ok true ∧
    (complete_task (Except.ok false) "9").exitCode ≠ 0 :=
  ⟨by simp,
   ((complete_delete_status (Except.ok false) "9").2.2.2.2.2.2.1).mpr (by simp)⟩

/-- C3: project-name resolution scans the drained project listing for the
first case-insensitive exact name match; when no project matches and the
subsequent task fetch succeeds, the handler prints the warning, lists the
full unfiltered task set, and returns normally (exit code 0). -/
theorem project_filter_soft_miss :
    (∀ (pages : List (List Project)) (n : String),
      get_project_id_by_name pages n =
        (pages.flatten.find? (fun proj => strLower proj.name == strLower n)).map Project.id) ∧
    (∀ (api : TasksApi) (n : String) (pages : List (List Project))
       (tpages : List (List Task)),
      pyTruthyStr (some n) = true →
      api.get_projects = Except.ok pages →
      get_project_id_by_name pages n = none →
      api.get_tasks none = Except.ok tpages →
      list_tasks api (some n) =
        ⟨project_warning n :: task_output tpages.flatten, 0,
          [TCall.projects, TCall.tasks none]⟩) := by
  constructor
  · intro pages n
    induction pages with
    | nil => rfl
    | cons page rest ih =>
        cases h : page.find? (fun proj => strLower proj.name == strLower n) <;>
          simp [get_project_id_by_name, find_project_in_page_eq, List.find?_append, h, ih,
            Option.or]
  · intro api n pages tpages htr hproj hmiss htasks
    have hne : n.isEmpty = false := by simpa [pyTruthyStr] using htr
    simp [list_tasks, htr, hne, hproj, hmiss, finish_tasks, htasks, pyTruthyStr]

/-- Witness for C3: the query "Work" misses the only project "Home", the
warning is printed, and the full task list is shown with exit code 0. -/
theorem project_filter_soft_miss_witness :
    pyTruthyStr (some "Work") = true ∧
    demoApiMiss.get_projects = Except.ok [[demoProject]] ∧
    get_project_id_by_name [[demoProject]] "Work" = none ∧
    demoApiMiss.get_tasks none = Except.ok [[demoTask]] ∧
    list_tasks demoApiMiss (some "Work") =
      ⟨project_warning "Work" :: task_output [demoTask], 0,
        [TCall.projects, TCall.tasks none]⟩ :=
  ⟨rfl, rfl, by decide, rfl,
   project_filter_soft_miss.2 demoApiMiss "Work" [[demoProject]] [[demoTask]]
     rfl rfl (by decide) rfl⟩

/-- C9: when the project listing raises during name resolution, the
task-listing handler prints the generic fetch error and exits with status
1; in particular it does not fall back to an unfiltered listing and never
calls the task fetch. -/
theorem project_fetch_error_no_fallback :
    ∀ (api : TasksApi) (n e : String),
      pyTruthyStr (some n) = true →
      api.get_projects = Except.error e →
      list_tasks api (some n) =
        ⟨["Error fetching tasks: " ++ e], 1, [TCall.projects]⟩ := by
  intro api n e htr hproj
  simp [list_tasks, htr, hproj]

/-- Witness for C9 with a raising project listing. -/
theorem project_fetch_error_witness :
    pyTruthyStr (some "Work") = true ∧
    demoApiRaise.get_projects = Except.error "boom" ∧
    list_tasks demoApiRaise (some "Work") =
      ⟨["Error fetching tasks: boom"], 1, [TCall.projects]⟩ :=
  ⟨rfl, rfl, project_fetch_error_no_fallback demoApiRaise "Work" "boom" rfl rfl⟩

/-- C5: a task row is the four fields in order id, priority, due,
content, the first three left-justified by appended spaces to widths 20,
12 and 15, separated by " | "; no field is truncated (the id is a literal
prefix, the content a literal suffix, and the row length grows with any
field beyond its width); a projects row is the id left-justified to width
20 followed by the separator and the (possibly indented) name. -/
theorem table_row_layout :
    (∀ i p d c : String,
      format_task_row i p d c =
        (i ++ spaces (20 - i.length)) ++ " | " ++ (p ++ spaces (12 - p.length)) ++ " | "
          ++ (d ++ spaces (15 - d.length)) ++ " | " ++ c) ∧
    (∀ i p d c : String, ∃ rest, format_task_row i p d c = i ++ rest) ∧
    (∀ i p d c : String, ∃ front, format_task_row i p d c = front ++ c) ∧
    (∀ i p d c : String,
      (format_task_row i p d c).length =
        max i.length 20 + 3 + max p.length 12 + 3 + max d.length 15 + 3 + c.length) ∧
    (∀ proj : Project,
      format_project_row proj =
        (proj.id ++ spaces (20 - proj.id.length)) ++ " | "
          ++ (if proj.parent_id.isSome then "  " else "") ++ proj.name) := by
  refine ⟨fun i p d c => rfl, ?_, ?_, ?_, fun proj => rfl⟩
  · intro i p d c
    exact ⟨spaces (20 - i.length) ++ " | " ++ ljust p 12 ++ " | " ++ ljust d 15 ++ " | " ++ c,
      by simp [format_task_row, ljust, String.append_assoc]⟩
  · intro i p d c
    exact ⟨ljust i 20 ++ " | " ++ ljust p 12 ++ " | " ++ ljust d 15 ++ " | ", rfl⟩
  · intro i p d c
    have hsep : (" | " : String).length = 3 := rfl
    simp only [format_task_row, ljust, String.length_append, spaces_length, hsep]
    omega

/-- Whatever the remote creation returns, `add_task` performs exactly one
remote call carrying the parameters it built. -/
theorem add_task_calls (remote : AddParams → Except String Task) (args : AddArgs) :
    (add_task remote args).calls = [build_add_params args] := by
  cases h : remote (build_add_params args) <;> simp [add_task, h]

/-- C6: an add invocation with only the content argument sends exactly one
creation request carrying priority 1, no due string and no project id;
priority 1 is displayed as "P4 (Normal)". -/
theorem add_defaults :
    ∀ (remote : AddParams → Except String Task) (content : String),
      (add_task remote { content := content }).calls =
        [{ content := content, priority := 1, due_string := none, project_id := none }] ∧
      format_priority 1 = "P4 (Normal)" := by
  intro remote content
  refine ⟨?_, rfl⟩
  rw [add_task_calls]
  rfl

/-- C8: every alias of every subcommand routes to the same handler as the
canonical name, so an alias invocation runs the identical handler on the
same parsed arguments. -/
theorem alias_dispatch :
    (∀ a ∈ ["tasks", "ls", "list"], dispatch a = some Handler.tasks) ∧
    (∀ a ∈ ["projects", "proj"], dispatch a = some Handler.projects) ∧
    (∀ a ∈ ["add", "new", "create"], dispatch a = some Handler.add) ∧
    (∀ a ∈ ["complete", "done", "close", "finish"], dispatch a = some Handler.complete) ∧
    (∀ a ∈ ["delete", "rm", "remove"], dispatch a = some Handler.delete) ∧
    (∀ a ∈ ["get", "show", "view"], dispatch a = some Handler.get) ∧
    (∀ a ∈ ["update", "edit", "modify"], dispatch a = some Handler.update) := by
  decide

end TodoistCli
